import Mathlib

/-!
# Verification of the flyghts flight-audit normalization layer

Shallow embedding of the flyghts repository (flight-schedule ingestion and
normalization) in Lean 4, together with proofs and refutations of the frozen
specification claims.

Source files embedded here:
- `src/flyghts/reference/status.py` (status-string parser)
- `src/flyghts/reference/airlines.py` (IATA→ICAO lookup)
- `src/flyghts/audit/models.py` (Flight, RouteFilter, DateFilter, QueryResult)
- `src/flyghts/audit/sources/base.py` (RawFlight)
- `src/flyghts/audit/sources/hk_airport.py` (HK airport adapter)
- `src/flyghts/audit/sources/korea_airport.py` (Incheon adapter)
- `src/flyghts/audit/service.py` and `src/flyghts/audit/stats.py`
- `scripts/dump_us_flights.py` (BTS bulk normalizer)

Python machine-level conventions modelled explicitly: string truthiness
(empty string is falsy), `or`-chains on possibly-falsy values, `dict.get`
semantics (a JSON `null` value behaves like a missing key for plain `get(k)`
but is returned verbatim by `get(k, default)`), and `str.strip`/`upper`/
`split`.  Whitespace is modelled as the ASCII whitespace characters
(Python additionally strips some rarer Unicode whitespace, which no claim
exercises).
-/

namespace Flyghts

/-! ## Python string primitives -/

/-- ASCII whitespace, the characters Python's `str.strip` and the regex
class backslash-s treat as blanks (space, tab, LF, VT, FF, CR). -/
def isPySpace (c : Char) : Bool :=
  c = ' ' ∨ c = '\t' ∨ c = '\n' ∨ c = '\x0b' ∨ c = '\x0c' ∨ c = '\r'

/-- Python `str.strip()` on a character list. -/
def pyStripList (cs : List Char) : List Char :=
  ((cs.dropWhile isPySpace).reverse.dropWhile isPySpace).reverse

/-- Python `str.strip()`. -/
def pyStrip (s : String) : String := ⟨pyStripList s.data⟩

/-- Python `str.upper()` (ASCII range; no claim uses non-ASCII letters). -/
def pyUpper (s : String) : String := ⟨s.data.map Char.toUpper⟩

/-- Python `str.lower()` (ASCII range). -/
def pyLower (s : String) : String := ⟨s.data.map Char.toLower⟩

/-- Python `s.split(sep)` for a one-character separator, on character
lists: `"".split("-") = [""]`, `"a-".split("-") = ["a", ""]`. -/
def pySplitOn (sep : Char) : List Char → List (List Char)
  | [] => [[]]
  | c :: cs =>
    if c = sep then
      [] :: pySplitOn sep cs
    else
      match pySplitOn sep cs with
      | [] => [[c]]
      | h :: t => (c :: h) :: t

/-- Python truthiness of an optional string (`None` and `""` are falsy). -/
def pyTruthyStr : Option String → Bool
  | none => false
  | some s => s ≠ ""

/-- Python `a or b` for an optional string `a` with fallback `b`. -/
def pyStrOr (a : Option String) (b : String) : String :=
  match a with
  | some s => if s = "" then b else s
  | none => b

/-- Left-pad a string with the digit 0 up to the given width
(Python `str.zfill` for non-signed inputs, and the `%0Nd` format). -/
def zfill (width : Nat) (s : String) : String :=
  ⟨List.replicate (width - s.length) '0' ++ s.data⟩

/-- Python decimal digit test. -/
def isDig (c : Char) : Bool := '0' ≤ c ∧ c ≤ '9'

/-- Numeric value of a digit run (the digits are already validated). -/
def digitsToNat (cs : List Char) : Nat :=
  cs.foldl (fun n c => n * 10 + (c.toNat - '0'.toNat)) 0

/-- Python `int(s)` on an optionally signed digit string; `none` models a
raised `ValueError`.  (Underscores, surrounding whitespace and other exotic
accepted forms are not exercised by this repository's data.) -/
def pyParseInt (s : String) : Option Int :=
  match s.data with
  | [] => none
  | '-' :: rest => if rest ≠ [] ∧ rest.all isDig then some (-(digitsToNat rest : Int)) else none
  | '+' :: rest => if rest ≠ [] ∧ rest.all isDig then some (digitsToNat rest : Int) else none
  | cs => if cs.all isDig then some (digitsToNat cs : Int) else none

/-- Python `float(s)` restricted to plain decimal notation
`[+-]digits[.digits]`, returning a rational; `none` models `ValueError`.
(Exponent, `inf`/`nan` spellings are not produced by the BTS columns.) -/
def pyParseFloat (s : String) : Option Rat :=
  let body : List Char → Option Rat := fun cs =>
    match cs.span isDig with
    | (intPart, []) =>
      if intPart ≠ [] then some (digitsToNat intPart : Rat) else none
    | (intPart, '.' :: fracPart) =>
      if (intPart ≠ [] ∨ fracPart ≠ []) ∧ fracPart.all isDig then
        some ((digitsToNat intPart : Rat) +
          (digitsToNat fracPart : Rat) / ((10 : Rat) ^ fracPart.length))
      else none
    | _ => none
  match s.data with
  | '-' :: rest => (body rest).map (fun q => -q)
  | '+' :: rest => body rest
  | cs => body cs

/-! ## Calendar dates and datetimes (`datetime.date` / `datetime.datetime`) -/

/-- A calendar date as Python's `datetime.date` stores it. -/
structure PyDate where
  year : Nat
  month : Nat
  day : Nat
  deriving DecidableEq, Repr

/-- A datetime down to minutes and seconds, as produced by the `strptime`
calls in the adapters (the formats used never produce sub-second parts). -/
structure PyDateTime where
  date : PyDate
  hour : Nat
  minute : Nat
  second : Nat
  deriving DecidableEq, Repr

/-- Gregorian leap-year rule. -/
def isLeap (y : Nat) : Bool := (y % 4 = 0 ∧ y % 100 ≠ 0) ∨ y % 400 = 0

/-- Days in a month, as `datetime` validates them. -/
def daysInMonth (y m : Nat) : Nat :=
  if m = 2 then (if isLeap y then 29 else 28)
  else if m = 4 ∨ m = 6 ∨ m = 9 ∨ m = 11 then 30
  else 31

/-- `datetime.date(y, m, d)` constructor validity. -/
def validDate (y m d : Nat) : Bool :=
  1 ≤ y ∧ y ≤ 9999 ∧ 1 ≤ m ∧ m ≤ 12 ∧ 1 ≤ d ∧ d ≤ daysInMonth y m

/-- `date.isoformat()` / `strftime("%Y-%m-%d")`. -/
def toIso (d : PyDate) : String :=
  zfill 4 (toString d.year) ++ "-" ++ zfill 2 (toString d.month) ++ "-" ++
    zfill 2 (toString d.day)

/-- Take a run of 1..maxLen digits followed by the rest; fails when the
leading digit run is empty or longer than `maxLen` (this is exactly how a
bounded greedy digit pattern with a non-digit successor behaves, since
backtracking inside a digit run can never make the successor match). -/
def takeBoundedDigits (maxLen : Nat) (cs : List Char) : Option (List Char × List Char) :=
  let (ds, rest) := cs.span isDig
  if 1 ≤ ds.length ∧ ds.length ≤ maxLen then some (ds, rest) else none

/-- `datetime.strptime(s, "%Y-%m-%d")` reduced to its date result; `none`
models `ValueError`.  `%Y`/`%m`/`%d` accept 1..4 / 1..2 / 1..2 digits and
the result must be a valid calendar date with nothing left over. -/
def fromIso (s : String) : Option PyDate :=
  match takeBoundedDigits 4 s.data with
  | none => none
  | some (ys, rest) =>
    match rest with
    | '-' :: rest2 =>
      match takeBoundedDigits 2 rest2 with
      | none => none
      | some (ms, rest3) =>
        match rest3 with
        | '-' :: rest4 =>
          match takeBoundedDigits 2 rest4 with
          | none => none
          | some (ds, rest5) =>
            if rest5 = [] ∧ validDate (digitsToNat ys) (digitsToNat ms) (digitsToNat ds) then
              some ⟨digitsToNat ys, digitsToNat ms, digitsToNat ds⟩
            else none
        | _ => none
    | _ => none

/-- Parse `"HH:MM"` or `"HH:MM:SS"` clock fields (1..2 digits each, ranges
validated), used by `strptime(..., "%Y-%m-%d %H:%M")` and the `%H:%M:%S`
variant; `none` models `ValueError`. -/
def parseClock (withSeconds : Bool) (cs : List Char) : Option (Nat × Nat × Nat) :=
  match takeBoundedDigits 2 cs with
  | none => none
  | some (hs, rest) =>
    match rest with
    | ':' :: rest2 =>
      match takeBoundedDigits 2 rest2 with
      | none => none
      | some (ms, rest3) =>
        let h := digitsToNat hs
        let m := digitsToNat ms
        if ¬ (h ≤ 23 ∧ m ≤ 59) then none
        else if withSeconds then
          match rest3 with
          | ':' :: rest4 =>
            match takeBoundedDigits 2 rest4 with
            | none => none
            | some (ss, rest5) =>
              let sec := digitsToNat ss
              if rest5 = [] ∧ sec ≤ 59 then some (h, m, sec) else none
          | _ => none
        else if rest3 = [] then some (h, m, 0) else none
    | _ => none

/-- `datetime.strptime(date.isoformat() ++ " " ++ t, fmt)` as used by the
adapters' `raw_to_flight`: the date half always round-trips, so only the
time half can fail. -/
def parseSched (withSeconds : Bool) (d : PyDate) (t : String) : Option PyDateTime :=
  (parseClock withSeconds t.data).map (fun hms => ⟨d, hms.1, hms.2.1, hms.2.2⟩)

/-! ## `flyghts/reference/status.py` — the status-string parser -/

/-- The `status_type` literals of `ParsedStatus`. -/
inductive StatusType where
  | departed
  | arrived
  | atGate
  | cancelled
  | delayed
  | unknown
  deriving DecidableEq, Repr

/-- `ParsedStatus` from `status.py`. -/
structure ParsedStatus where
  status_type : StatusType
  actual_time : Option String
  actual_date : Option String
  deriving DecidableEq, Repr

/-- Case-insensitive literal match of the keyword `kw` against a prefix of
`cs` (this is how `re.IGNORECASE` treats the literal parts of the pattern);
returns the characters matched verbatim and the rest. -/
def ciMatchKeyword : List Char → List Char → Option (List Char × List Char)
  | [], cs => some ([], cs)
  | _ :: _, [] => none
  | k :: ks, c :: cs =>
    if c.toLower = k.toLower then
      (ciMatchKeyword ks cs).map (fun p => (c :: p.1, p.2))
    else none

/-- The `(\d{1,2})/(\d{1,2})/(\d{4})\)` date tail of `_STATUS_RE`, applied
after the opening parenthesis; returns the three digit groups.  After the
closing parenthesis only blanks may remain (the trailing backslash-s-star
of the pattern). -/
def matchDateTail (cs : List Char) : Option (List Char × List Char × List Char) :=
  match takeBoundedDigits 2 cs with
  | none => none
  | some (dd, rest) =>
    match rest with
    | '/' :: rest2 =>
      match takeBoundedDigits 2 rest2 with
      | none => none
      | some (mm, rest3) =>
        match rest3 with
        | '/' :: rest4 =>
          let (ys, rest5) := rest4.span isDig
          match rest5 with
          | ')' :: rest6 =>
            if ys.length = 4 ∧ rest6.all isPySpace then some (dd, mm, ys) else none
          | _ => none
        | _ => none
    | _ => none

/-- The part of `_STATUS_RE` after the keyword group:
`\s+(\d{1,2}:\d{2})(?:\s+\((\d{1,2})/(\d{1,2})/(\d{4})\))?\s*$`.
Returns the time text verbatim plus the optional date groups.  The bounded
digit runs and literal separators make the pattern's backtracking
deterministic, so a direct scan is equivalent. -/
def matchTimeAndDate (cs : List Char) :
    Option (List Char × Option (List Char × List Char × List Char)) :=
  let (ws1, rest) := cs.span isPySpace
  if ws1 = [] then none
  else
    match takeBoundedDigits 2 rest with
    | none => none
    | some (hs, rest2) =>
      match rest2 with
      | ':' :: rest3 =>
        let (ms, rest4) := rest3.span isDig
        if ms.length ≠ 2 then none
        else
          let timeText := hs ++ ':' :: ms
          let (ws2, rest5) := rest4.span isPySpace
          match rest5 with
          | [] => some (timeText, none)
          | '(' :: rest6 =>
            if ws2 = [] then none
            else (matchDateTail rest6).map (fun g => (timeText, some g))
          | _ => none
      | _ => none

/-- `_STATUS_RE.match(s)` of `status.py`: the anchored, case-insensitive
pattern `^(Dep|Arr|At gate)\s+(\d{1,2}:\d{2})(?:\s+\((\d{1,2})/(\d{1,2})/(\d{4})\))?\s*$`.
The three keyword alternatives are mutually exclusive on their first two
characters, so trying them in the pattern's order is faithful.  Returns the
keyword text as matched, the time text verbatim, and the optional date
groups. -/
def matchStatusList (cs : List Char) :
    Option (List Char × List Char × Option (List Char × List Char × List Char)) :=
  let tryKw : String → Option (List Char × List Char × Option (List Char × List Char × List Char)) :=
    fun kw =>
      match ciMatchKeyword kw.data cs with
      | none => none
      | some (kwText, rest) => (matchTimeAndDate rest).map (fun p => (kwText, p.1, p.2))
  match tryKw "Dep" with
  | some r => some r
  | none =>
    match tryKw "Arr" with
    | some r => some r
    | none => tryKw "At gate"

/-- String-level wrapper for `matchStatusList`. -/
def matchStatus (s : String) :
    Option (String × String × Option (String × String × String)) :=
  (matchStatusList s.data).map
    (fun g => (⟨g.1⟩, ⟨g.2.1⟩, g.2.2.map (fun d => (⟨d.1⟩, ⟨d.2.1⟩, ⟨d.2.2⟩))))

/-- `_TYPE_MAP.get(prefix_lower, "unknown")` of `status.py`, applied to the
lower-cased stripped keyword group. -/
def typeMapLookup (kwLower : String) : StatusType :=
  if kwLower = "dep" then .departed
  else if kwLower = "arr" then .arrived
  else if kwLower = "at gate" then .atGate
  else .unknown

/-- The `actual_date` reformatting `f"{y:04d}-{mo:02d}-{d:02d}"` applied to
the `(dd, mm, yyyy)` groups (the `int` conversions cannot fail on digit
groups, so the guarded `except ValueError` path is dead). -/
def formatActualDate (g : String × String × String) : String :=
  zfill 4 (toString (digitsToNat g.2.2.data)) ++ "-" ++
    zfill 2 (toString (digitsToNat g.2.1.data)) ++ "-" ++
    zfill 2 (toString (digitsToNat g.1.data))

/-- The `ParsedStatus` for unrecognized input. -/
def unknownStatus : ParsedStatus := ⟨.unknown, none, none⟩

/-- `parse_status` from `status.py` (the argument is `None` or a string;
non-string arguments take the same early `unknown` return as `None`). -/
def parse_status (status : Option String) : ParsedStatus :=
  match status with
  | none => unknownStatus
  | some raw =>
    if raw = "" then unknownStatus
    else
      let s := pyStrip raw
      if s = "" then unknownStatus
      else if pyLower s = "cancelled" then ⟨.cancelled, none, none⟩
      else if pyLower s = "delayed" then ⟨.delayed, none, none⟩
      else
        match matchStatus s with
        | some (kwText, timeText, dateGroups) =>
          ⟨typeMapLookup (pyLower (pyStrip kwText)), some timeText,
            dateGroups.map formatActualDate⟩
        | none => unknownStatus

/-! ## A model of decoded JSON values (what `resp.json()` hands the adapters) -/

/-- A decoded JSON value.  `jnull` is Python's `None`. -/
inductive JVal where
  | jstr (s : String)
  | jint (n : Int)
  | jbool (b : Bool)
  | jnull
  | jlist (l : List JVal)
  | jdict (d : List (String × JVal))

/-- A decoded JSON object: association list with unique keys, first match
wins (Python dict lookup). -/
abbrev Jdict := List (String × JVal)

/-- Raw key lookup: `some jnull` when the key maps to JSON `null`. -/
def jfind (d : Jdict) (k : String) : Option JVal :=
  (d.find? (fun p => p.1 = k)).map (fun p => p.2)

/-- Python `d.get(k)`: a missing key and a `null` value both come back as
`None`. -/
def jget (d : Jdict) (k : String) : Option JVal :=
  match jfind d k with
  | some .jnull => none
  | v => v

/-- Python `d.get(k, default)`: the default applies only to a missing key;
a stored `null` is returned as-is (as Python `None`, i.e. `jnull`). -/
def jgetD (d : Jdict) (k : String) (dflt : JVal) : JVal :=
  match jfind d k with
  | none => dflt
  | some v => v

/-- Python `k in d` (key presence, `null` values included). -/
def jhasKey (d : Jdict) (k : String) : Bool :=
  (jfind d k).isSome

/-- Python truthiness of a decoded JSON value. -/
def pyTruthy : JVal → Bool
  | .jstr s => s ≠ ""
  | .jint n => n ≠ 0
  | .jbool b => b
  | .jnull => false
  | .jlist l => ¬ l.isEmpty
  | .jdict d => ¬ d.isEmpty

mutual

/-- Python `repr` restricted to the value shapes that occur in these
payloads (string escaping inside reprs is not exercised by any claim). -/
def pyRepr : JVal → String
  | .jstr s => "'" ++ s ++ "'"
  | .jint n => toString n
  | .jbool b => if b then "True" else "False"
  | .jnull => "None"
  | .jlist l => "[" ++ pyReprSeq l ++ "]"
  | .jdict d => "\x7b" ++ pyReprEntries d ++ "\x7d"

/-- Comma-joined reprs of a value sequence. -/
def pyReprSeq : List JVal → String
  | [] => ""
  | [v] => pyRepr v
  | v :: rest => pyRepr v ++ ", " ++ pyReprSeq rest

/-- Comma-joined reprs of dict entries. -/
def pyReprEntries : List (String × JVal) → String
  | [] => ""
  | [(k, v)] => "'" ++ k ++ "': " ++ pyRepr v
  | (k, v) :: rest => "'" ++ k ++ "': " ++ pyRepr v ++ ", " ++ pyReprEntries rest

end

/-- Python `str(v)` on a decoded JSON value. -/
def pyStr : JVal → String
  | .jstr s => s
  | v => pyRepr v

/-- Python `a or b or ... or dflt` over looked-up JSON values: the first
truthy value wins, and `None`/missing/falsy values fall through. -/
def truthyChain (opts : List (Option JVal)) (dflt : JVal) : JVal :=
  match opts with
  | [] => dflt
  | o :: rest =>
    match o with
    | some v => if pyTruthy v then v else truthyChain rest dflt
    | none => truthyChain rest dflt

/-! ## `flyghts/reference/airlines.py` — IATA→ICAO normalization

The merged airlines table is loaded at runtime from a bundled
`airlines.json` (fetched by `scripts/fetch_reference_data.py`, not part of
the source tree) overlaid with `_AIRLINE_OVERRIDES`; we therefore
parameterize every lookup by the merged table.  Of each row only the
`"iata"` field feeds `_build_iata_index`, so a row is modelled by that
field (`row.get("iata", "")`). -/

/-- One row of the merged airlines table, reduced to the single field the
IATA index builder reads. -/
structure AirlineRow where
  iata : String
  deriving DecidableEq, Repr

/-- The merged airlines table: ICAO key to row, in insertion order. -/
abbrev AirlinesTable := List (String × AirlineRow)

/-- `_build_iata_index` from `airlines.py`: first mapping for an IATA code
wins, rows with an empty `iata` field are skipped. -/
def buildIataIndex (data : AirlinesTable) : List (String × String) :=
  data.foldl
    (fun idx row =>
      if row.2.iata ≠ "" ∧ (idx.find? (fun p => p.1 = row.2.iata)).isNone then
        idx ++ [(row.2.iata, row.1)]
      else idx)
    []

/-- `iata_to_icao` from `airlines.py`: empty input gives `None`; otherwise
the input is upper-cased, stripped and looked up in the IATA index. -/
def iata_to_icao (data : AirlinesTable) (iata : String) : Option String :=
  if iata = "" then none
  else
    ((buildIataIndex data).find? (fun p => p.1 = pyStrip (pyUpper iata))).map (fun p => p.2)

/-- `iata_to_icao(code) or code` as the adapters apply it (Python `or`, so
an empty lookup result also falls back). -/
def icaoOrRaw (data : AirlinesTable) (code : String) : String :=
  pyStrOr (iata_to_icao data code) code

/-! ## `flyghts/audit/sources/base.py` and `flyghts/audit/models.py` -/

/-- `RawFlight` from `base.py`.  The `origin`/`destination` annotations in
the source say `str`, but the HK adapter stores `None` there when an
arrival item carries no origin field, so the value domain is an optional
string. -/
structure RawFlight where
  origin : Option String
  destination : Option String
  flight_no : String
  airline : String
  scheduled_time : Option String
  status : Option String
  date : PyDate
  gate : Option String := none
  terminal : Option String := none
  cargo : Option Bool := none
  deriving DecidableEq, Repr

/-- The field names of `base.py`'s `RawFlight` dataclass, in declaration
order. -/
def rawFlightFieldNames : List String :=
  ["origin", "destination", "flight_no", "airline", "scheduled_time",
   "status", "date", "gate", "terminal", "cargo"]

/-- `Flight` from `models.py` (the canonical record as the dataclass
actually declares it). -/
structure Flight where
  origin : Option String
  destination : Option String
  flight_no : String
  airline : String
  scheduled_time : Option PyDateTime
  status : Option String
  date : PyDate
  gate : Option String := none
  terminal : Option String := none
  cargo : Option Bool := none
  deriving DecidableEq, Repr

/-- The field names of `models.py`'s `Flight` dataclass, in declaration
order. -/
def flightFieldNames : List String :=
  ["origin", "destination", "flight_no", "airline", "scheduled_time",
   "status", "date", "gate", "terminal", "cargo"]

/-- Python `f"{v}"` of an optional string (`None` renders as `"None"`). -/
def pyFmtOptStr : Option String → String
  | none => "None"
  | some s => s

/-- `Flight.route()` from `models.py`. -/
def Flight.route (f : Flight) : String :=
  pyFmtOptStr f.origin ++ "-" ++ pyFmtOptStr f.destination

/-- `RouteFilter` from `models.py`. -/
structure RouteFilter where
  origin : Option String := none
  destination : Option String := none
  bidirectional : Bool := false
  deriving DecidableEq, Repr

/-- `RouteFilter.from_route_string`: upper-case, split on `"-"`, demand
exactly two parts (else `ValueError`, modelled as `Except.error` carrying
the message), strip each part. -/
def from_route_string (route : String) (bidirectional : Bool) :
    Except String RouteFilter :=
  match (pySplitOn '-' (pyUpper route).data).map (fun l => (⟨l⟩ : String)) with
  | [a, b] => .ok ⟨some (pyStrip a), some (pyStrip b), bidirectional⟩
  | _ => .error ("Invalid route format: " ++ route ++ ". Expected ORIGIN-DEST (e.g. HKG-TPE)")

/-- `DateFilter` from `models.py`. -/
structure DateFilter where
  start_date : PyDate
  end_date : Option PyDate := none
  deriving DecidableEq, Repr

/-- `DateFilter.single(d)`. -/
def DateFilter.single (d : PyDate) : DateFilter := ⟨d, some d⟩

/-- Lexicographic date comparison (`datetime.date` ordering). -/
def dateLe (a b : PyDate) : Bool :=
  a.year < b.year ∨ (a.year = b.year ∧
    (a.month < b.month ∨ (a.month = b.month ∧ a.day ≤ b.day)))

/-- `d + timedelta(days=1)` on valid dates. -/
def nextDay (d : PyDate) : PyDate :=
  if d.day < daysInMonth d.year d.month then ⟨d.year, d.month, d.day + 1⟩
  else if d.month < 12 then ⟨d.year, d.month + 1, 1⟩
  else ⟨d.year + 1, 1, 1⟩

/-- A measure that strictly increases along `nextDay`, used to bound the
`iter_dates` loop. -/
def dateOrdinal (d : PyDate) : Nat := d.year * 372 + d.month * 31 + d.day

/-- The `while d <= end` loop body of `iter_dates`, with an explicit bound
on the number of produced dates. -/
def iterDatesAux (endD : PyDate) : Nat → PyDate → List PyDate
  | 0, _ => []
  | fuel + 1, d => if dateLe d endD then d :: iterDatesAux endD fuel (nextDay d) else []

/-- `DateFilter.iter_dates()` as a list; the fuel `dateOrdinal end + 1 -
dateOrdinal start` dominates the number of loop iterations. -/
def iterDates (f : DateFilter) : List PyDate :=
  let endD := f.end_date.getD f.start_date
  iterDatesAux endD (dateOrdinal endD + 1 - dateOrdinal f.start_date) f.start_date

/-- `AuditQuery` from `models.py`. -/
structure AuditQuery where
  route : RouteFilter
  date_filter : DateFilter
  deriving DecidableEq, Repr

/-- `QueryResult` from `models.py`. -/
structure QueryResult where
  flights : List Flight := []
  query : Option AuditQuery := none
  deriving DecidableEq, Repr

/-- The column list `QueryResult.to_dataframe` produces: the explicit
`columns=[...]` list for the empty case (models.py lines 105-115) and the
row-dict keys in insertion order for the non-empty case (lines 116-129)
are the same seven names. -/
def toDataframeColumns (r : QueryResult) : List String :=
  if r.flights.isEmpty then
    ["origin", "destination", "flight_no", "airline", "scheduled_time",
     "status", "date"]
  else
    ["origin", "destination", "flight_no", "airline", "scheduled_time",
     "status", "date"]

/-- The canonical output columns, as produced by the repository's dump
scripts (`_to_dataframe` in `scripts/dump_hk_flights.py` and
`scripts/dump_korea_flights.py`, and `_normalize` in
`scripts/dump_us_flights.py`). -/
def canonicalDumpColumns : List String :=
  ["origin", "destination", "flight_no", "airline", "operating_flight_no",
   "operating_airline", "scheduled_time", "status", "date", "cargo"]

/-! ## `flyghts/audit/sources/hk_airport.py` — the HK airport adapter

`fetch_flights` is embedded from the point where `resp.json()` has
delivered a decoded payload (the HTTP transport is outside the embedded
fragment).  A returned `none` models an uncaught Python exception
(`ValueError` from `strptime`, or attribute/type errors on payload shapes
the source would crash on). -/

/-- `_get_str` from `hk_airport.py`: first alias whose value is present
and strips to a non-empty string. -/
def getStr (d : Jdict) : List String → Option String
  | [] => none
  | k :: ks =>
    match jget d k with
    | some v =>
      let s := pyStrip (pyStr v)
      if s ≠ "" then some s else getStr d ks
    | none => getStr d ks

/-- `_get_str_or_first` from `hk_airport.py`: like `_get_str`, but a
non-empty list value short-circuits to its first element (returning `None`
outright when that element is falsy). -/
def getStrOrFirst (d : Jdict) : List String → Option String
  | [] => none
  | k :: ks =>
    match jget d k with
    | some v =>
      match v with
      | .jlist (x :: _) => if pyTruthy x then some (pyStrip (pyStr x)) else none
      | w =>
        let s := pyStrip (pyStr w)
        if s ≠ "" then some s else getStrOrFirst d ks
    | none => getStrOrFirst d ks

/-- The values the source iterates as flight-number entries.  Strings
would iterate into characters that the entry loop then skips (not dicts),
so they contribute nothing; other non-list scalars never reach this point
in this API's payloads. -/
def jIterItems : JVal → List JVal
  | .jlist l => l
  | _ => []

/-- `_parse_list_item` from `hk_airport.py`.  `none` models the
`ValueError` that `datetime.strptime(date_str, "%Y-%m-%d")` raises inside
the record constructions; since at least one `RawFlight` is always
constructed (one side of the route is the constant `"HKG"`), a bad
`date_str` always raises. -/
def hkParseListItem (item : Jdict) (date_str : String) (arrival : Bool) :
    Option (List RawFlight) :=
  match fromIso date_str with
  | none => none
  | some dd =>
    let origin := if arrival then
        getStrOrFirst item ["Origin", "origin", "Port of origin", "portOfOrigin",
          "From", "from", "dep_iata", "dep"]
      else some "HKG"
    let destination := if arrival then some "HKG"
      else
        getStrOrFirst item ["Destination", "destination", "Port of destination",
          "portOfDestination", "To", "to", "arr_iata", "arr"]
    let time_str := getStr item ["Time", "time", "ScheduledTime", "scheduledTime"]
    let status := getStr item ["Status", "status"]
    let gate := getStr item ["Gate", "gate"]
    let terminal := getStr item ["Terminal", "terminal"]
    let fnVal := truthyChain
      [jget item "flight", jget item "Flight number list", jget item "flightNumberList",
       jget item "flightNumbers", jget item "flights"] (.jlist [])
    let fnVal2 := match fnVal with
      | .jdict d => .jlist [.jdict d]
      | v => v
    let fns :=
      if ¬ pyTruthy fnVal2 ∧
          pyTruthy (truthyChain [jget item "No", jget item "FlightNo", jget item "Airline"] .jnull) then
        [.jdict item]
      else jIterItems fnVal2
    let parsed := fns.filterMap (fun fn =>
      match fn with
      | .jdict fnd =>
        let flight_no := getStr fnd ["No", "no", "FlightNo", "flightNo", "number", "flight_number"]
        let airline := getStr fnd ["Airline", "airline", "carrier", "Carrier"]
        if flight_no.isSome ∨ airline.isSome then
          some (⟨origin, destination, pyStrOr flight_no "", pyStrOr airline "",
            time_str, status, dd, gate, terminal, none⟩ : RawFlight)
        else none
      | _ => none)
    if parsed.isEmpty ∧ (pyTruthyStr origin ∨ pyTruthyStr destination) then
      some [⟨some (pyStrOr origin ""), some (pyStrOr destination ""), "", "",
        time_str, status, dd, gate, terminal, none⟩]
    else some parsed

/-- One `for item in ...: for raw in self._parse_list_item(...)` loop of
`fetch_flights`, over a shared date value.  A non-dict item or a non-string
date value models the attribute/type error the source would raise at that
point. -/
def parseItemsWithDate (items : List JVal) (dateVal : JVal) (arrival : Bool) :
    Option (List RawFlight) :=
  match items with
  | [] => some []
  | it :: rest =>
    match it with
    | .jdict d =>
      match dateVal with
      | .jstr ds =>
        match hkParseListItem d ds arrival, parseItemsWithDate rest dateVal arrival with
        | some l, some ls => some (l ++ ls)
        | _, _ => none
      | _ => none
    | _ => none

/-- The date-wrapped-list branch of `fetch_flights`: each wrapper supplies
its own `list` and `date` (falling back to the query date). -/
def hkFetchWrappers (wrappers : List JVal) (flight_date : PyDate) (arrival : Bool) :
    Option (List RawFlight) :=
  match wrappers with
  | [] => some []
  | w :: rest =>
    match w with
    | .jdict d =>
      let items := jIterItems (truthyChain [jget d "list", jget d "List"] (.jlist []))
      let dateVal := truthyChain [jget d "date", jget d "Date"] (.jstr (toIso flight_date))
      match parseItemsWithDate items dateVal arrival, hkFetchWrappers rest flight_date arrival with
      | some l, some ls => some (l ++ ls)
      | _, _ => none
    | _ => none

/-- The wrapper-shape test of `fetch_flights`:
`data and isinstance(data[0], dict) and ("list" in data[0] or "List" in data[0])`. -/
def hkWrapperTest (data : List JVal) : Bool :=
  match data.head? with
  | some (.jdict d0) => jhasKey d0 "list" || jhasKey d0 "List"
  | _ => false

/-- `HKAirportSource.fetch_flights` from the decoded payload on: the
polymorphic shape dispatch over bare arrays, arrays of date wrappers
(detected by a `list`/`List` key on the first element) and `List`/`list`
objects. -/
def hkFetchFlights (payload : JVal) (flight_date : PyDate) (arrival : Bool) :
    Option (List RawFlight) :=
  match payload with
  | .jlist data =>
    if hkWrapperTest data then
      hkFetchWrappers data flight_date arrival
    else parseItemsWithDate data (.jstr (toIso flight_date)) arrival
  | .jdict d =>
    let items := jIterItems (truthyChain [jget d "List", jget d "list"] (.jlist []))
    let dateVal := truthyChain [jget d "Date", jget d "date"] (.jstr (toIso flight_date))
    parseItemsWithDate items dateVal arrival
  | _ => none

/-- `HKAirportSource.raw_to_flight`: combine the raw date with the raw
time string under `%H:%M`, retrying `%H:%M:%S`; all other fields are
copied verbatim (`cargo` is not forwarded and keeps the `Flight` default
`None`). -/
def hkRawToFlight (raw : RawFlight) : Flight :=
  let dt :=
    match raw.scheduled_time with
    | none => none
    | some t =>
      if t = "" then none
      else
        match parseSched false raw.date t with
        | some v => some v
        | none => parseSched true raw.date t
  ⟨raw.origin, raw.destination, raw.flight_no, raw.airline, dt, raw.status,
    raw.date, raw.gate, raw.terminal, none⟩

/-! ## `flyghts/audit/sources/korea_airport.py` — the Incheon adapter -/

/-- ASCII upper-case letter (the regex class `[A-Z]`). -/
def isUpperAZ (c : Char) : Bool := 'A' ≤ c ∧ c ≤ 'Z'

/-- `_extract_airline_code`: `^([A-Z]{2})\d`, then `^([A-Z0-9]{2})\d`,
then the first two characters (or the whole id when shorter than two). -/
def extractAirlineCode (flight_id : String) : String :=
  match flight_id.data with
  | c1 :: c2 :: c3 :: _ =>
    if isUpperAZ c1 ∧ isUpperAZ c2 ∧ isDig c3 then ⟨[c1, c2]⟩
    else if (isUpperAZ c1 ∨ isDig c1) ∧ (isUpperAZ c2 ∨ isDig c2) ∧ isDig c3 then ⟨[c1, c2]⟩
    else ⟨[c1, c2]⟩
  | [c1, c2] => ⟨[c1, c2]⟩
  | l => ⟨l⟩

/-- `_build_status` from `korea_airport.py`: the stripped `remark`, or
`None` when it is empty (the `est_time` argument is unused there). -/
def koreaBuildStatus (item : Jdict) : Option String :=
  let remark := pyStrip (pyStr (jgetD item "remark" (.jstr "")))
  if remark ≠ "" then some remark else none

/-- The record `KoreaAirportSource._parse_item` attempts to construct: the
`RawFlight` keyword arguments of korea_airport.py lines 159-172, which
include two fields (`operating_flight_no`, `operating_airline`) that
`base.py`'s `RawFlight` dataclass does not declare. -/
structure KRawFlight where
  origin : Option String
  destination : Option String
  flight_no : String
  airline : String
  scheduled_time : Option String
  status : Option String
  date : PyDate
  gate : Option String
  terminal : Option String
  cargo : Option Bool
  operating_flight_no : String
  operating_airline : String
  deriving DecidableEq, Repr

/-- The keyword arguments `_parse_item` passes to the `RawFlight`
constructor, in source order (korea_airport.py lines 159-172). -/
def koreaRawFlightCtorKeys : List String :=
  ["origin", "destination", "flight_no", "airline", "scheduled_time",
   "status", "date", "gate", "terminal", "cargo", "operating_flight_no",
   "operating_airline"]

/-- `str(item.get("flightId", "")).strip()` — the flight id of a Korea
response item. -/
def koreaFlightId (item : Jdict) : String :=
  pyStrip (pyStr (jgetD item "flightId" (.jstr "")))

/-- `KoreaAirportSource._parse_item`, parameterized by the merged airlines
table.  `none` is the source's early `return None` for an empty flight id;
the data flow past that point is modelled on `KRawFlight` (see the note on
the missing dataclass fields there). -/
def koreaParseItem (table : AirlinesTable) (item : Jdict) (flight_date : PyDate)
    (arrival : Bool) : Option KRawFlight :=
  let flight_id := koreaFlightId item
  if flight_id = "" then none
  else
    let airline_iata := extractAirlineCode flight_id
    let airline_icao := icaoOrRaw table airline_iata
    let airport_code0 := pyStrip (pyStr (jgetD item "cityCode" (.jstr "")))
    let airport_code :=
      if airport_code0 = "" then pyStrip (pyStr (jgetD item "airport" (.jstr "")))
      else airport_code0
    let origin := if arrival then airport_code else "ICN"
    let destination := if arrival then "ICN" else airport_code
    let sched_time := pyStrip (pyStr (jgetD item "scheduleDateTime" (.jstr "")))
    let scheduled_dt_str :=
      if sched_time ≠ "" ∧ 4 ≤ sched_time.length then
        some ((⟨sched_time.data.take 2⟩ : String) ++ ":" ++ (⟨(sched_time.data.drop 2).take 2⟩ : String))
      else none
    let status := koreaBuildStatus item
    let gateS := pyStrip (pyStr (jgetD item "gatenumber" (.jstr "")))
    let gate := if gateS = "" then none else some gateS
    let terminalS := pyStrip (pyStr (jgetD item "terminalid" (.jstr "")))
    let terminal := if terminalS = "" then none else some terminalS
    let codeshare := pyStrip (pyStr (jgetD item "codeshare" (.jstr "")))
    let master_flight := pyStrip (pyStr (jgetD item "masterflightid" (.jstr "")))
    let opFields :=
      if codeshare ≠ "" ∧ master_flight ≠ "" then
        (master_flight, icaoOrRaw table (extractAirlineCode master_flight))
      else (flight_id, airline_icao)
    some ⟨some origin, some destination, flight_id, airline_icao, scheduled_dt_str,
      status, flight_date, gate, terminal, some false, opFields.1, opFields.2⟩

/-! ### `_fetch_all_pages` (pagination loop)

The loop is embedded from the point where each page's
`data.get("response", {}).get("body", {})` envelope has been unwrapped;
the body dict's `items` / `totalCount` handling is modelled in full.  The
page fetcher is a function from the 1-based page number to that body
dict. -/

/-- Lines 90-100 of `korea_airport.py`: unwrap `body["items"]` into a flat
item list (`{"item": ...}` wrapper, bare list, or a single dict wrapped
into a singleton).  Falsy values and unrecognized shapes contribute no
items (a truthy non-list scalar here would make the source misbehave on
`extend`; the API never produces one). -/
def kExtractItems (body : Jdict) : List JVal :=
  let items_wrapper := truthyChain [jget body "items"] (.jlist [])
  let items : JVal :=
    match items_wrapper with
    | .jdict d => jgetD d "item" (.jlist [])
    | .jlist l => .jlist l
    | _ => .jlist []
  match items with
  | .jdict d => [.jdict d]
  | .jlist l => l
  | _ => []

/-- `int(body.get("totalCount", 0))`; `none` models the `TypeError` /
`ValueError` that `int` raises on unconvertible values. -/
def kTotalCount (body : Jdict) : Option Int :=
  match jgetD body "totalCount" (.jint 0) with
  | .jint n => some n
  | .jstr s => pyParseInt (pyStrip s)
  | .jbool b => some (if b then 1 else 0)
  | _ => none

/-- The `while True` loop of `_fetch_all_pages`: accumulate a page's
items, stop on an empty page, stop once the accumulated count has reached
the page's reported total, else advance to the next page.  `fuel` bounds
the iterations (`none` = fuel exhausted or an `int` conversion error). -/
def fetchAllPagesAux (server : Nat → Jdict) : Nat → List JVal → Nat → Option (List JVal)
  | 0, _, _ => none
  | fuel + 1, all_items, page =>
    let items := kExtractItems (server page)
    if items.isEmpty then some all_items
    else
      let acc := all_items ++ items
      match kTotalCount (server page) with
      | none => none
      | some total_count =>
        if total_count ≤ (acc.length : Int) then some acc
        else fetchAllPagesAux server fuel acc (page + 1)

/-- `_fetch_all_pages`, starting from page 1 with an empty accumulator. -/
def fetchAllPages (server : Nat → Jdict) (fuel : Nat) : Option (List JVal) :=
  fetchAllPagesAux server fuel [] 1

/-- The concatenation of the items of `k` consecutive whole pages starting
at page `p`. -/
def concatPages (server : Nat → Jdict) (p : Nat) : Nat → List JVal
  | 0 => []
  | k + 1 => kExtractItems (server p) ++ concatPages server (p + 1) k

/-! ## `flyghts/audit/stats.py` and `flyghts/audit/service.py` -/

/-- Python dict in insertion order with `m[k] = m.get(k, 0) + 1`. -/
def bump {κ : Type} [DecidableEq κ] (m : List (κ × Nat)) (k : κ) : List (κ × Nat) :=
  match m with
  | [] => [(k, 1)]
  | (k0, n) :: rest => if k0 = k then (k0, n + 1) :: rest else (k0, n) :: bump rest k

/-- `FlightStats` from `stats.py` (dicts as insertion-ordered association
lists). -/
structure FlightStats where
  total_flights : Nat := 0
  by_airline : List (String × Nat) := []
  by_date : List (String × Nat) := []
  by_route : List (String × Nat) := []
  by_hour : List (Nat × Nat) := []
  status_summary : List (String × Nat) := []
  deriving DecidableEq, Repr

/-- The status-summary key `(f.status or "Unknown").strip() or "Unknown"`. -/
def statusKey (f : Flight) : String :=
  let s := pyStrip (pyStrOr f.status "Unknown")
  if s = "" then "Unknown" else s

/-- One iteration of the `for f in flights` loop of `compute_stats`:
airline (skipped when falsy), ISO date, route, hour (skipped when the
scheduled time is absent), status summary. -/
def statsStep (st : FlightStats) (f : Flight) : FlightStats :=
  let st1 := if f.airline ≠ "" then { st with by_airline := bump st.by_airline f.airline } else st
  let st2 := { st1 with by_date := bump st1.by_date (toIso f.date) }
  let st3 := { st2 with by_route := bump st2.by_route f.route }
  let st4 :=
    match f.scheduled_time with
    | some t => { st3 with by_hour := bump st3.by_hour t.hour }
    | none => st3
  { st4 with status_summary := bump st4.status_summary (statusKey f) }

/-- `compute_stats` from `stats.py` (`total_flights` is set to the length
up front; the early return for an empty list coincides with folding over
nothing). -/
def compute_stats (flights : List Flight) : FlightStats :=
  flights.foldl statsStep { total_flights := flights.length }

/-- `AuditService._matches_route`: try the filter pair (and, when
bidirectional, the reversed pair); a falsy filter side is a wildcard. -/
def matchesRoute (f : Flight) (route : RouteFilter) : Bool :=
  let sideOk : Option String → Option String → Bool := fun filt val =>
    match filt with
    | some s => if s = "" then true else val = some s
    | none => true
  let pairs :=
    if route.bidirectional then
      [(route.origin, route.destination), (route.destination, route.origin)]
    else [(route.origin, route.destination)]
  pairs.any (fun p => sideOk p.1 f.origin ∧ sideOk p.2 f.destination)

/-- `AuditService.query`, parameterized by the source's `fetch_flights`
(date, arrival flag, cargo flag) and `raw_to_flight`: per date fetch
departures then arrivals, convert every raw record, keep the route
matches. -/
def serviceQuery (fetch : PyDate → Bool → Bool → List RawFlight)
    (rawToFlight : RawFlight → Flight) (route : RouteFilter) (df : DateFilter) :
    QueryResult :=
  let flights := (iterDates df).flatMap (fun d =>
    ((fetch d false false ++ fetch d true false).map rawToFlight).filter
      (fun f => matchesRoute f route))
  ⟨flights, some ⟨route, df⟩⟩

/-! ## `scripts/dump_us_flights.py` — the BTS bulk normalizer -/

/-- `_parse_time`: strip the dots, left-pad to `HHMM`, read hour and
minute, map `24` to midnight, validate against `datetime`'s ranges; `none`
models the caught `ValueError`/`IndexError` path and the empty/`nan`
guard. -/
def usParseTime (hhmm : String) (fl_date : PyDate) : Option PyDateTime :=
  if hhmm = "" ∨ hhmm = "nan" then none
  else
    let t := zfill 4 ⟨hhmm.data.filter (fun c => c ≠ '.')⟩
    match pyParseInt ⟨t.data.take 2⟩, pyParseInt ⟨(t.data.drop 2).take 2⟩ with
    | some h0, some m =>
      let h : Int := if h0 = 24 then 0 else h0
      if 0 ≤ h ∧ h ≤ 23 ∧ 0 ≤ m ∧ m ≤ 59 then
        some ⟨fl_date, h.toNat, m.toNat, 0⟩
      else none
    | _, _ => none

/-- The departure-time fallback tail of `_build_status`. -/
def usDepFallback (r : Jdict) : String :=
  let dep_time := pyStrip (pyStr (jgetD r "DepTime" (.jstr "")))
  if dep_time ≠ "" ∧ dep_time ≠ "nan" then "Dep " ++ zfill 4 dep_time else ""

/-- `_build_status` from `dump_us_flights.py`: cancelled, then diverted,
then the arrival-delay classification (falling through to the departure
time on a float parse failure), then the departure-time fallback. -/
def usBuildStatus (r : Jdict) : String :=
  let cancelled := pyStrip (pyStr (jgetD r "Cancelled" (.jstr "0")))
  if cancelled = "1" ∨ cancelled = "1.0" ∨ cancelled = "1.00" then "Cancelled"
  else
    let diverted := pyStrip (pyStr (jgetD r "Diverted" (.jstr "0")))
    if diverted = "1" ∨ diverted = "1.0" ∨ diverted = "1.00" then "Diverted"
    else
      let arr_time := pyStrip (pyStr (jgetD r "ArrTime" (.jstr "")))
      let arr_delay := pyStrip (pyStr (jgetD r "ArrDelay" (.jstr "")))
      if arr_delay ≠ "" ∧ arr_delay ≠ "nan" then
        match pyParseFloat arr_delay with
        | some delay_min =>
          if delay_min ≤ 0 then
            if arr_time ≠ "" ∧ arr_time ≠ "nan" then "Arr " ++ zfill 4 arr_time
            else "On time"
          else
            let delay_str := "+" ++ toString delay_min.floor ++ "min"
            if arr_time ≠ "" ∧ arr_time ≠ "nan" then
              "Arr " ++ zfill 4 arr_time ++ " (" ++ delay_str ++ ")"
            else "Delayed " ++ delay_str
        | none => usDepFallback r
      else usDepFallback r

/-- One output row of `_normalize` (the dict appended to `rows`), with the
ten canonical columns. -/
structure UsRow where
  origin : String
  destination : String
  flight_no : String
  airline : String
  operating_flight_no : String
  operating_airline : String
  scheduled_time : Option PyDateTime
  status : String
  date : String
  cargo : Bool
  deriving DecidableEq, Repr

/-- `str(r.get("IATA_Code_Marketing_Airline", "")).strip()` — the
marketing-carrier IATA code of a BTS row. -/
def usMktIata (r : Jdict) : String :=
  pyStrip (pyStr (jgetD r "IATA_Code_Marketing_Airline" (.jstr "")))

/-- `str(r.get("FlightDate", "")).strip()` — the date column of a BTS
row. -/
def usFlightDateStr (r : Jdict) : String :=
  pyStrip (pyStr (jgetD r "FlightDate" (.jstr "")))

/-- One iteration of the `for _, r in df.iterrows()` loop of `_normalize`,
parameterized by the merged airlines table; `none` is the `continue` taken
exactly when `FlightDate` fails to parse. -/
def usNormalizeRow (table : AirlinesTable) (r : Jdict) : Option UsRow :=
  let mkt_iata := usMktIata r
  let mkt_icao := icaoOrRaw table mkt_iata
  let mkt_fl_num := pyStrip (pyStr (jgetD r "Flight_Number_Marketing_Airline" (.jstr "")))
  let flight_no := if mkt_fl_num ≠ "" then mkt_iata ++ " " ++ mkt_fl_num else mkt_iata
  let op_iata := pyStrip (pyStr (jgetD r "IATA_Code_Operating_Airline" (.jstr "")))
  let op_icao := icaoOrRaw table op_iata
  let op_fl_num := pyStrip (pyStr (jgetD r "Flight_Number_Operating_Airline" (.jstr "")))
  let op_flight_no := if op_fl_num ≠ "" then op_iata ++ " " ++ op_fl_num else op_iata
  match fromIso (usFlightDateStr r) with
  | none => none
  | some fl_date =>
    let crs_dep := pyStrip (pyStr (jgetD r "CRSDepTime" (.jstr "")))
    some ⟨pyStrip (pyStr (jgetD r "Origin" (.jstr ""))),
      pyStrip (pyStr (jgetD r "Dest" (.jstr ""))),
      flight_no, mkt_icao,
      (if op_iata ≠ "" then op_flight_no else flight_no),
      (if op_iata ≠ "" then op_icao else mkt_icao),
      usParseTime crs_dep fl_date, usBuildStatus r, toIso fl_date, false⟩

/-! ## Derived notions and concrete fixtures used by the theorems -/

/-- Total number of occurrences recorded in one of the statistics dicts. -/
def sumCounts {κ : Type} (m : List (κ × Nat)) : Nat := (m.map Prod.snd).sum

/-- The continuation condition of the pagination loop at `page`, given the
number `accLen` of items accumulated from the earlier pages: the page has
items and the accumulated count including them is still below the reported
total. -/
def kContinueHere (server : Nat → Jdict) (page accLen : Nat) : Prop :=
  kExtractItems (server page) ≠ [] ∧
  ∃ tc, kTotalCount (server page) = some tc ∧
    ((accLen + (kExtractItems (server page)).length : Nat) : Int) < tc

/-- The stop condition of the pagination loop at `page`: the page is empty,
or the accumulated count including this page reaches the reported total. -/
def kStopHere (server : Nat → Jdict) (page accLen : Nat) : Prop :=
  kExtractItems (server page) = [] ∨
  ∃ tc, kTotalCount (server page) = some tc ∧
    tc ≤ ((accLen + (kExtractItems (server page)).length : Nat) : Int)

/-- An airlines table carrying the IATA mapping `CX -> CPA` (Cathay
Pacific), as the OpenFlights-derived reference data would provide it. -/
def c3CexTable : AirlinesTable := [("CPA", ⟨"CX"⟩)]

/-- An HK raw record whose provider airline code is the IATA code `CX`. -/
def c3CexRaw : RawFlight :=
  ⟨some "HKG", some "TPE", "CX421", "CX", some "08:30", some "Departed",
    ⟨2025, 2, 17⟩, none, none, none⟩

/-- A Korea airlines table mapping `KE -> KAL`. -/
def c3WitnessTable : AirlinesTable := [("KAL", ⟨"KE"⟩)]

/-- A minimal Korea response item. -/
def c3WitnessItem : Jdict := [("flightId", .jstr "KE094")]

/-- A minimal BTS row with a marketing carrier and a valid date. -/
def c3WitnessRow : Jdict :=
  [("IATA_Code_Marketing_Airline", .jstr "KE"), ("FlightDate", .jstr "2024-12-01")]

/-- A three-page Korea server: two pages of items with `totalCount` 3
(one of them in the `{"item": [...]}` wrapper shape), then empty pages. -/
def c6WitnessServer : Nat → Jdict := fun p =>
  if p = 1 then [("items", .jlist [.jstr "a", .jstr "b"]), ("totalCount", .jint 3)]
  else if p = 2 then [("items", .jdict [("item", .jlist [.jstr "c"])]), ("totalCount", .jint 3)]
  else [("items", .jlist [])]

/-- A concrete HK list item in the classic schema (one flight number
sub-entry), used to witness the shape-tolerance equivalence. -/
def c7WitnessItems : List JVal :=
  [.jdict [("Destination", .jstr "TPE"), ("Time", .jstr "08:30"),
    ("Flight number list", .jlist [.jdict [("No", .jstr "CX421"), ("Airline", .jstr "CX")]]),
    ("Status", .jstr "Departed")]]

/-- The mocked HKG→TPE departure raw record of the end-to-end scenario. -/
def c8RawDep : RawFlight :=
  ⟨some "HKG", some "TPE", "CX421", "CX", some "08:30", some "Departed",
    ⟨2025, 2, 17⟩, none, none, none⟩

/-- The mocked TPE→HKG arrival raw record of the end-to-end scenario. -/
def c8RawArr : RawFlight :=
  ⟨some "TPE", some "HKG", "BR891", "BR", some "08:30", some "Departed",
    ⟨2025, 2, 17⟩, none, none, none⟩

/-- The mocked source: one departure record, one arrival record. -/
def c8Fetch : PyDate → Bool → Bool → List RawFlight :=
  fun _ arrival _ => if arrival then [c8RawArr] else [c8RawDep]

/-- The mocked `raw_to_flight` of `tests/test_service.py`: copy the fields,
leave the scheduled time absent. -/
def c8Convert : RawFlight → Flight :=
  fun r => ⟨r.origin, r.destination, r.flight_no, r.airline, none, r.status,
    r.date, none, none, none⟩

/-- The parsed bidirectional HKG-TPE route filter. -/
def c8Route : RouteFilter := ⟨some "HKG", some "TPE", true⟩

/-- The end-to-end query result for the single date 2025-02-17. -/
def c8Result : QueryResult :=
  serviceQuery c8Fetch c8Convert c8Route (DateFilter.single ⟨2025, 2, 17⟩)

/-- A flight whose airline field is the empty string. -/
def c10EmptyAirlineFlight : Flight :=
  ⟨some "HKG", some "TPE", "CX421", "", none, none, ⟨2025, 2, 17⟩, none, none, none⟩

/-! ## Helper lemmas -/

theorem pySplitOn_ne_nil (sep : Char) (l : List Char) : pySplitOn sep l ≠ [] := by
  cases l with
  | nil => simp [pySplitOn]
  | cons c cs =>
    simp only [pySplitOn]
    split
    · simp
    · split <;> simp

theorem pySplitOn_no_sep (sep : Char) (l : List Char) (h : sep ∉ l) :
    pySplitOn sep l = [l] := by
  induction l with
  | nil => rfl
  | cons c cs ih =>
    have hc : c ≠ sep := by intro he; exact h (he ▸ List.mem_cons_self c cs)
    have hcs : sep ∉ cs := fun hm => h (List.mem_cons_of_mem c hm)
    simp only [pySplitOn, if_neg hc, ih hcs]

theorem pySplitOn_append_sep (sep : Char) (a b : List Char) (h : sep ∉ a) :
    pySplitOn sep (a ++ sep :: b) = a :: pySplitOn sep b := by
  induction a with
  | nil => simp [pySplitOn]
  | cons c cs ih =>
    have hc : c ≠ sep := by intro he; exact h (he ▸ List.mem_cons_self c cs)
    have hcs : sep ∉ cs := fun hm => h (List.mem_cons_of_mem c hm)
    simp only [List.cons_append, pySplitOn, if_neg hc, List.append_eq, ih hcs]

theorem pySplitOn_length_eq (sep : Char) (l : List Char) :
    (pySplitOn sep l).length = l.count sep + 1 := by
  induction l with
  | nil => rfl
  | cons c cs ih =>
    simp only [pySplitOn]
    by_cases hc : c = sep
    · subst hc
      simp [List.count_cons, ih]
    · rw [if_neg hc]
      cases hr : pySplitOn sep cs with
      | nil => exact absurd hr (pySplitOn_ne_nil sep cs)
      | cons h0 t =>
        rw [hr] at ih
        simp only [List.length_cons] at ih ⊢
        simp [List.count_cons, hc]
        omega

theorem toUpper_ne_dash (c : Char) (h : c ≠ '-') : c.toUpper ≠ '-' := by
  intro hc
  unfold Char.toUpper at hc
  simp only [] at hc
  split at hc
  · next hr =>
    have h1 : (Char.ofNat (c.toNat - 32)).toNat = 45 := by rw [hc]; rfl
    have hv : Nat.isValidChar (c.toNat - 32) := by
      constructor
      omega
    rw [Char.ofNat, dif_pos hv] at h1
    simp only [Char.ofNatAux, Char.toNat, UInt32.toNat] at h1
    simp only [BitVec.toNat_ofNatLt] at h1
    simp only [Char.toNat, UInt32.toNat] at hr
    omega
  · exact h hc

theorem count_dash_map_toUpper (l : List Char) :
    (l.map Char.toUpper).count '-' = l.count '-' := by
  induction l with
  | nil => rfl
  | cons c cs ih =>
    by_cases hc : c = '-'
    · subst hc
      simp [List.count_cons, ih]
    · simp [List.count_cons, ih, hc, toUpper_ne_dash c hc]

theorem extractAirlineCode_ne_empty (s : String) (h : s ≠ "") :
    extractAirlineCode s ≠ "" := by
  have hd : s.data ≠ [] := by
    intro he
    exact h (String.ext_iff.mpr he)
  rcases hs : s.data with _ | ⟨c1, _ | ⟨c2, _ | ⟨c3, rest⟩⟩⟩
  · exact absurd hs hd
  · simp [extractAirlineCode, hs, String.ext_iff]
  · simp [extractAirlineCode, hs, String.ext_iff]
  · unfold extractAirlineCode
    rw [hs]
    split <;> try split
    all_goals simp [String.ext_iff]

theorem icaoOrRaw_ne_empty (table : AirlinesTable) (code : String) (h : code ≠ "") :
    icaoOrRaw table code ≠ "" := by
  unfold icaoOrRaw pyStrOr
  cases iata_to_icao table code with
  | none => exact h
  | some s =>
    by_cases hs : s = "" <;> simp [hs, h]

theorem ite_emits {c : Prop} [Decidable c] (a b : List RawFlight)
    (h1 : c → a ≠ []) (h2 : ¬ c → b ≠ []) :
    ∃ l, (if c then some a else some b) = some l ∧ l ≠ [] := by
  by_cases hc : c
  · exact ⟨a, by rw [if_pos hc], h1 hc⟩
  · exact ⟨b, by rw [if_neg hc], h2 hc⟩

theorem sumCounts_bump {κ : Type} [DecidableEq κ] (m : List (κ × Nat)) (k : κ) :
    sumCounts (bump m k) = sumCounts m + 1 := by
  induction m with
  | nil => rfl
  | cons p rest ih =>
    obtain ⟨k0, n⟩ := p
    by_cases h : k0 = k
    · simp [bump, h, sumCounts]
      omega
    · simp [bump, h, sumCounts] at ih ⊢
      omega

theorem statsStep_total (st : FlightStats) (f : Flight) :
    (statsStep st f).total_flights = st.total_flights := by
  by_cases h : f.airline = "" <;> cases hs : f.scheduled_time <;>
    simp [statsStep, h, hs]

theorem statsStep_by_date (st : FlightStats) (f : Flight) :
    sumCounts (statsStep st f).by_date = sumCounts st.by_date + 1 := by
  by_cases h : f.airline = "" <;> cases hs : f.scheduled_time <;>
    simp [statsStep, h, hs, sumCounts_bump]

theorem statsStep_by_route (st : FlightStats) (f : Flight) :
    sumCounts (statsStep st f).by_route = sumCounts st.by_route + 1 := by
  by_cases h : f.airline = "" <;> cases hs : f.scheduled_time <;>
    simp [statsStep, h, hs, sumCounts_bump]

theorem statsStep_status (st : FlightStats) (f : Flight) :
    sumCounts (statsStep st f).status_summary = sumCounts st.status_summary + 1 := by
  by_cases h : f.airline = "" <;> cases hs : f.scheduled_time <;>
    simp [statsStep, h, hs, sumCounts_bump]

theorem statsStep_by_airline (st : FlightStats) (f : Flight) :
    sumCounts (statsStep st f).by_airline =
      sumCounts st.by_airline + (if f.airline ≠ "" then 1 else 0) := by
  by_cases h : f.airline = "" <;> cases hs : f.scheduled_time <;>
    simp [statsStep, h, hs, sumCounts_bump]

theorem foldl_statsStep_total (fs : List Flight) :
    ∀ st : FlightStats, (fs.foldl statsStep st).total_flights = st.total_flights := by
  induction fs with
  | nil => intro st; rfl
  | cons f rest ih =>
    intro st
    rw [List.foldl_cons, ih, statsStep_total]

theorem foldl_statsStep_by_date (fs : List Flight) :
    ∀ st : FlightStats,
      sumCounts (fs.foldl statsStep st).by_date = sumCounts st.by_date + fs.length := by
  induction fs with
  | nil => intro st; simp
  | cons f rest ih =>
    intro st
    rw [List.foldl_cons, ih, statsStep_by_date]
    simp
    omega

theorem foldl_statsStep_by_route (fs : List Flight) :
    ∀ st : FlightStats,
      sumCounts (fs.foldl statsStep st).by_route = sumCounts st.by_route + fs.length := by
  induction fs with
  | nil => intro st; simp
  | cons f rest ih =>
    intro st
    rw [List.foldl_cons, ih, statsStep_by_route]
    simp
    omega

theorem foldl_statsStep_status (fs : List Flight) :
    ∀ st : FlightStats,
      sumCounts (fs.foldl statsStep st).status_summary =
        sumCounts st.status_summary + fs.length := by
  induction fs with
  | nil => intro st; simp
  | cons f rest ih =>
    intro st
    rw [List.foldl_cons, ih, statsStep_status]
    simp
    omega

theorem foldl_statsStep_by_airline (fs : List Flight) :
    ∀ st : FlightStats,
      sumCounts (fs.foldl statsStep st).by_airline =
        sumCounts st.by_airline + (fs.filter (fun f => f.airline ≠ "")).length := by
  induction fs with
  | nil => intro st; simp
  | cons f rest ih =>
    intro st
    rw [List.foldl_cons, ih, statsStep_by_airline]
    by_cases h : f.airline = ""
    · simp [List.filter_cons, h]
    · simp [List.filter_cons, h]
      omega

theorem ne_nil_of_isEmpty_false {α : Type} (l : List α) (h : l.isEmpty = false) :
    l ≠ [] := by
  cases l <;> simp_all

theorem fetchAllPagesAux_step (server : Nat → Jdict) (fuel : Nat) (acc : List JVal)
    (page : Nat) :
    fetchAllPagesAux server (fuel + 1) acc page =
      (if (kExtractItems (server page)).isEmpty then some acc
       else
         match kTotalCount (server page) with
         | none => none
         | some tc =>
           if tc ≤ ((acc ++ kExtractItems (server page)).length : Int) then
             some (acc ++ kExtractItems (server page))
           else fetchAllPagesAux server fuel (acc ++ kExtractItems (server page)) (page + 1)) :=
  rfl

/-- The pagination loop, run with enough fuel, returns exactly the whole
pages before the first stopping page (plus that page when it stopped on
the total-count check rather than on emptiness). -/
theorem fetchAux_exact (server : Nat → Jdict) :
    ∀ (m page : Nat) (acc : List JVal),
      (∀ i, i < m →
        kContinueHere server (page + i) (acc.length + (concatPages server page i).length)) →
      kStopHere server (page + m) (acc.length + (concatPages server page m).length) →
      fetchAllPagesAux server (m + 1) acc page =
        some (acc ++ concatPages server page
          (if (kExtractItems (server (page + m))).isEmpty then m else m + 1)) := by
  intro m
  induction m with
  | zero =>
    intro page acc hcont hstop
    simp only [Nat.add_zero, concatPages, List.length_nil] at hstop ⊢
    rw [fetchAllPagesAux_step]
    by_cases hi : kExtractItems (server page) = []
    · have hie : (kExtractItems (server page)).isEmpty = true := by simp [hi]
      simp [hie, concatPages]
    · rcases hstop with h | ⟨tc, htc, hle⟩
      · exact absurd h hi
      · have hne : (kExtractItems (server page)).isEmpty = false := by
          simpa [List.isEmpty_iff] using hi
        simp only [hne, Bool.false_eq_true, if_false, htc]
        rw [if_pos ?hp]
        case hp =>
          rw [List.length_append]
          push_cast
          omega
        simp [concatPages]
  | succ m ih =>
    intro page acc hcont hstop
    have h0 := hcont 0 (Nat.succ_pos m)
    simp only [Nat.add_zero, concatPages, List.length_nil] at h0
    obtain ⟨hne, tc, htc, hlt⟩ := h0
    have hne2 : (kExtractItems (server page)).isEmpty = false := by
      simpa [List.isEmpty_iff] using hne
    rw [fetchAllPagesAux_step]
    simp only [hne2, Bool.false_eq_true, if_false, htc]
    rw [if_neg ?hn]
    case hn =>
      rw [List.length_append]
      push_cast
      omega
    have hrec := ih (page + 1) (acc ++ kExtractItems (server page)) ?hc ?hs
    case hc =>
      intro i hi
      have hx := hcont (i + 1) (by omega)
      rw [show page + (i + 1) = page + 1 + i from by omega] at hx
      have hlen : (acc ++ kExtractItems (server page)).length +
          (concatPages server (page + 1) i).length =
          acc.length + (concatPages server page (i + 1)).length := by
        simp only [concatPages, List.length_append]
        omega
      rw [hlen]
      exact hx
    case hs =>
      have hx := hstop
      rw [show page + (m + 1) = page + 1 + m from by omega] at hx
      have hlen : (acc ++ kExtractItems (server page)).length +
          (concatPages server (page + 1) m).length =
          acc.length + (concatPages server page (m + 1)).length := by
        simp only [concatPages, List.length_append]
        omega
      rw [hlen]
      exact hx
    rw [hrec]
    rw [show page + (m + 1) = page + 1 + m from by omega]
    by_cases hlast : (kExtractItems (server (page + 1 + m))).isEmpty
    · simp only [hlast, if_true, concatPages, List.append_assoc]
    · simp only [hlast, Bool.false_eq_true, if_false, concatPages, List.append_assoc]

/-! ## The claims -/

/-- C1 (code divergence): `QueryResult.to_dataframe` emits only the seven
columns `origin, destination, flight_no, airline, scheduled_time, status,
date` — not the ten canonical dump columns — and the `Flight` dataclass
declares no `operating_flight_no`/`operating_airline` fields, while the
canonical output of the dump scripts carries all ten columns. -/
theorem c1_queryresult_dataframe_columns :
    (∀ r : QueryResult, toDataframeColumns r =
      ["origin", "destination", "flight_no", "airline", "scheduled_time",
       "status", "date"]) ∧
    toDataframeColumns ⟨[], none⟩ ≠ canonicalDumpColumns ∧
    "operating_flight_no" ∉ flightFieldNames ∧
    "operating_airline" ∉ flightFieldNames ∧
    (∀ r : QueryResult, "cargo" ∉ toDataframeColumns r) := by
  refine ⟨fun r => ?_, by decide, by decide, by decide, fun r => ?_⟩
  · unfold toDataframeColumns
    split <;> rfl
  · unfold toDataframeColumns
    split <;> decide

/-- C2 (code divergence): the `RawFlight` construction in
`KoreaAirportSource._parse_item` passes the keyword arguments
`operating_flight_no` and `operating_airline`, but the `RawFlight`
dataclass of `base.py` declares no such fields, so the construction
raises `TypeError` for every parsed item. -/
theorem c2_korea_constructor_fields_mismatch :
    "operating_flight_no" ∈ koreaRawFlightCtorKeys ∧
    "operating_airline" ∈ koreaRawFlightCtorKeys ∧
    "operating_flight_no" ∉ rawFlightFieldNames ∧
    "operating_airline" ∉ rawFlightFieldNames := by decide

/-- C3 counterexample: with a table mapping the IATA code `CX` to the ICAO
code `CPA`, the HK adapter converts a raw record with airline `CX` to a
`Flight` whose airline is still `CX`, not the `iata_to_icao` image `CPA` —
so `raw_to_flight` output is not ICAO-normalized for the HK adapter. -/
theorem c3_hk_airline_not_normalized_cex :
    iata_to_icao c3CexTable "CX" = some "CPA" ∧
    (hkRawToFlight c3CexRaw).airline = "CX" ∧ "CX" ≠ "CPA" :=
  ⟨by decide, rfl, by decide⟩

/-- C3 (amended): ICAO normalization (`iata_to_icao` with fallback to the
raw code, hence never empty when the source provided something) is applied
by the Korea adapter at parse time and by the bulk normalizer, while the
HK adapter `raw_to_flight` copies the provider airline code verbatim. -/
theorem c3_airline_normalization_amended :
    (∀ raw : RawFlight, (hkRawToFlight raw).airline = raw.airline) ∧
    (∀ (table : AirlinesTable) (item : Jdict) (fd : PyDate) (arr : Bool) (r : KRawFlight),
      koreaParseItem table item fd arr = some r →
      r.airline = icaoOrRaw table (extractAirlineCode (koreaFlightId item)) ∧
      r.airline ≠ "") ∧
    (∀ (table : AirlinesTable) (row : Jdict) (u : UsRow),
      usNormalizeRow table row = some u →
      u.airline = icaoOrRaw table (usMktIata row)) := by
  refine ⟨fun raw => rfl, ?_, ?_⟩
  · intro table item fd arr r hr
    unfold koreaParseItem at hr
    by_cases hid : koreaFlightId item = ""
    · rw [if_pos hid] at hr
      exact absurd hr (by simp)
    · rw [if_neg hid] at hr
      simp only [Option.some.injEq] at hr
      subst hr
      exact ⟨rfl, icaoOrRaw_ne_empty _ _ (extractAirlineCode_ne_empty _ hid)⟩
  · intro table row u hu
    unfold usNormalizeRow at hu
    cases hfd : fromIso (usFlightDateStr row) with
    | none => rw [hfd] at hu; exact absurd hu (by simp)
    | some d =>
      rw [hfd] at hu
      simp only [Option.some.injEq] at hu
      subst hu
      rfl

/-- C3 witness: the amended theorem applied to a concrete Korea item
(airline `KAL` from the `KE` flight-id prefix) and a concrete BTS row. -/
theorem c3_airline_normalization_witness :
    (∃ r, koreaParseItem c3WitnessTable c3WitnessItem ⟨2026, 3, 1⟩ false = some r ∧
      r.airline = icaoOrRaw c3WitnessTable (extractAirlineCode (koreaFlightId c3WitnessItem)) ∧
      r.airline ≠ "") ∧
    (∃ u, usNormalizeRow c3WitnessTable c3WitnessRow = some u ∧
      u.airline = icaoOrRaw c3WitnessTable (usMktIata c3WitnessRow)) :=
  ⟨⟨_, rfl, c3_airline_normalization_amended.2.1 c3WitnessTable c3WitnessItem
      ⟨2026, 3, 1⟩ false _ rfl⟩,
   ⟨_, rfl, c3_airline_normalization_amended.2.2 c3WitnessTable c3WitnessRow _ rfl⟩⟩

/-- C4: `parse_status` is total and follows the specified grammar: absent
or blank input and unmatched text give `unknown` with no time or date;
the literals are matched case-insensitively after stripping; a pattern
match yields the keyword-derived type, the verbatim time text, and the
reformatted date exactly when the suffix is present; and the two concrete
examples of the spec evaluate as stated. -/
theorem c4_parse_status_grammar :
    parse_status none = unknownStatus ∧
    parse_status (some "") = unknownStatus ∧
    (∀ s : String, pyLower (pyStrip s) = "cancelled" →
      parse_status (some s) = ⟨.cancelled, none, none⟩) ∧
    (∀ s : String, pyLower (pyStrip s) = "delayed" →
      parse_status (some s) = ⟨.delayed, none, none⟩) ∧
    (∀ (s kw t : String) (g : Option (String × String × String)),
      pyLower (pyStrip s) ≠ "cancelled" → pyLower (pyStrip s) ≠ "delayed" →
      matchStatus (pyStrip s) = some (kw, t, g) →
      parse_status (some s) =
        ⟨typeMapLookup (pyLower (pyStrip kw)), some t, g.map formatActualDate⟩) ∧
    (∀ s : String, pyLower (pyStrip s) ≠ "cancelled" → pyLower (pyStrip s) ≠ "delayed" →
      pyStrip s ≠ "" → matchStatus (pyStrip s) = none →
      parse_status (some s) = unknownStatus) ∧
    parse_status (some "Dep 00:13") = ⟨.departed, some "00:13", none⟩ ∧
    parse_status (some "At gate 00:00 (02/01/2026)") =
      ⟨.atGate, some "00:00", some "2026-01-02"⟩ ∧
    parse_status (some "Cancelled") = ⟨.cancelled, none, none⟩ ∧
    parse_status (some "Boarding") = unknownStatus := by
  refine ⟨rfl, rfl, ?_, ?_, ?_, ?_, by decide, by decide, by decide, by decide⟩
  · intro s h
    have hs : pyStrip s ≠ "" := by
      intro he
      rw [he] at h
      exact absurd h (by decide)
    have hraw : s ≠ "" := by
      intro he
      rw [he] at hs
      exact hs rfl
    simp [parse_status, hraw, hs, h]
  · intro s h
    have hs : pyStrip s ≠ "" := by
      intro he
      rw [he] at h
      exact absurd h (by decide)
    have hraw : s ≠ "" := by
      intro he
      rw [he] at hs
      exact hs rfl
    simp [parse_status, hraw, hs, h]
  · intro s kw t g hc hd hm
    have hs : pyStrip s ≠ "" := by
      intro he
      rw [he] at hm
      exact absurd hm (by simp [matchStatus, matchStatusList, ciMatchKeyword])
    have hraw : s ≠ "" := by
      intro he
      rw [he] at hs
      exact hs rfl
    simp [parse_status, hraw, hs, hc, hd, hm]
  · intro s hc hd hs hm
    have hraw : s ≠ "" := by
      intro he
      rw [he] at hs
      exact hs rfl
    simp [parse_status, hraw, hs, hc, hd, hm, unknownStatus]

/-- C4 witness: the grammar theorem applied to a stripped case-variant
literal and to a concrete pattern match with a date suffix. -/
theorem c4_parse_status_grammar_witness :
    parse_status (some " CANCELLED ") = ⟨.cancelled, none, none⟩ ∧
    parse_status (some "Arr 5:07 (3/12/2026)") =
      ⟨typeMapLookup (pyLower (pyStrip "Arr")), some "5:07",
        Option.map formatActualDate (some ("3", "12", "2026"))⟩ ∧
    parse_status (some "Dep 10:123") = unknownStatus :=
  ⟨c4_parse_status_grammar.2.2.1 " CANCELLED " (by decide),
   c4_parse_status_grammar.2.2.2.2.1 "Arr 5:07 (3/12/2026)" "Arr" "5:07"
     (some ("3", "12", "2026")) (by decide) (by decide) (by decide),
   c4_parse_status_grammar.2.2.2.2.2.1 "Dep 10:123" (by decide) (by decide)
     (by decide) (by decide)⟩

/-- C5 counterexample: a well-formed Korea payload item that merely lacks
its `flightId` field (the empty dict) is dropped by `_parse_item`
(`return None`), so a missing field other than the bulk-file date column
does cause a record to be dropped, contradicting the claim that the Korea
adapter emits every item. -/
theorem c5_korea_drops_missing_flight_id_cex :
    koreaParseItem [] [] ⟨2026, 1, 2⟩ false = none := rfl

/-- C5 (amended): the HK adapter emits at least one raw record for every
item (given a parseable wrapper date); the Korea adapter drops exactly the
items whose flight id is empty or missing and emits every other item as a
record with absent fields where parsing fails (absent time for a short
schedule field, status only from a non-blank remark); the bulk normalizer
drops a row exactly when its `FlightDate` fails to parse. -/
theorem c5_unparseable_field_handling_amended :
    (∀ (item : Jdict) (ds : String) (arrival : Bool) (d : PyDate), fromIso ds = some d →
      ∃ l, hkParseListItem item ds arrival = some l ∧ l ≠ []) ∧
    (∀ (table : AirlinesTable) (item : Jdict) (fd : PyDate) (arr : Bool),
      (koreaFlightId item = "" → koreaParseItem table item fd arr = none) ∧
      (koreaFlightId item ≠ "" → ∃ r, koreaParseItem table item fd arr = some r ∧
        (pyStrip (pyStr (jgetD item "scheduleDateTime" (.jstr ""))) = "" →
          r.scheduled_time = none) ∧
        r.status = koreaBuildStatus item)) ∧
    (∀ (table : AirlinesTable) (row : Jdict),
      usNormalizeRow table row = none ↔ fromIso (usFlightDateStr row) = none) := by
  refine ⟨?_, ?_, ?_⟩
  · intro item ds arrival d hd
    cases arrival with
    | false =>
      simp only [hkParseListItem, hd]
      refine ite_emits _ _ (fun _ => by simp) ?_
      intro hnc hnil
      refine hnc ⟨by rw [hnil]; rfl, Or.inl (by simp [pyTruthyStr])⟩
    | true =>
      simp only [hkParseListItem, hd]
      refine ite_emits _ _ (fun _ => by simp) ?_
      intro hnc hnil
      refine hnc ⟨by rw [hnil]; rfl, Or.inr (by simp [pyTruthyStr])⟩
  · intro table item fd arr
    constructor
    · intro h
      simp [koreaParseItem, h]
    · intro h
      simp only [koreaParseItem, h, if_neg, if_false]
      refine ⟨_, rfl, ?_, rfl⟩
      intro hs
      simp [hs]
  · intro table row
    constructor
    · intro h
      cases hfd : fromIso (usFlightDateStr row) with
      | none => rfl
      | some d =>
        unfold usNormalizeRow at h
        rw [hfd] at h
        exact absurd h (by simp)
    · intro h
      unfold usNormalizeRow
      rw [h]

/-- C5 witness: the amended theorem applied to an item with no usable
fields under a valid date (HK), an item with only a flight id (Korea), and
a row with an unparseable date (bulk). -/
theorem c5_unparseable_field_handling_witness :
    (∃ l, hkParseListItem [] "2025-02-17" false = some l ∧ l ≠ []) ∧
    (∃ r, koreaParseItem [] [("flightId", .jstr "KE094")] ⟨2026, 3, 1⟩ true = some r ∧
      (pyStrip (pyStr (jgetD [("flightId", .jstr "KE094")] "scheduleDateTime" (.jstr ""))) = "" →
        r.scheduled_time = none) ∧
      r.status = koreaBuildStatus [("flightId", .jstr "KE094")]) ∧
    usNormalizeRow [] [("FlightDate", .jstr "bad")] = none :=
  ⟨c5_unparseable_field_handling_amended.1 [] "2025-02-17" false ⟨2025, 2, 17⟩ rfl,
   (c5_unparseable_field_handling_amended.2.1 [] [("flightId", .jstr "KE094")]
     ⟨2026, 3, 1⟩ true).2 (by decide),
   (c5_unparseable_field_handling_amended.2.2 [] [("FlightDate", .jstr "bad")]).mpr rfl⟩

/-- C6: `_fetch_all_pages` accumulates page items and stops exactly when a
page is empty or the accumulated count reaches that page response's
reported total: if the continuation condition holds for the first `m`
pages and the stop condition holds at page `m+1`, the loop terminates
with fuel `m+1` and returns a concatenation of whole pages — all of pages
1..m when page `m+1` was empty, all of pages 1..m+1 otherwise — with no
partial-page leakage. -/
theorem c6_fetch_all_pages_pagination (server : Nat → Jdict) (m : Nat)
    (hcont : ∀ i, i < m → kContinueHere server (1 + i) (concatPages server 1 i).length)
    (hstop : kStopHere server (1 + m) (concatPages server 1 m).length) :
    ∃ l, fetchAllPages server (m + 1) = some l ∧
      (∃ k, k ≤ m + 1 ∧ l = concatPages server 1 k) ∧
      (kExtractItems (server (1 + m)) = [] → l = concatPages server 1 m) ∧
      (kExtractItems (server (1 + m)) ≠ [] → l = concatPages server 1 (m + 1)) := by
  have h := fetchAux_exact server m 1 [] (by simpa using hcont) (by simpa using hstop)
  rw [fetchAllPages]
  by_cases hl : kExtractItems (server (1 + m)) = []
  · have hie : (kExtractItems (server (1 + m))).isEmpty = true := by simp [hl]
    simp only [hie, if_true, List.nil_append] at h
    exact ⟨_, h, ⟨m, by omega, rfl⟩, fun _ => rfl, fun hc => absurd hl hc⟩
  · have hie : (kExtractItems (server (1 + m))).isEmpty = false := by
      simpa [List.isEmpty_iff] using hl
    simp only [hie, Bool.false_eq_true, if_false, List.nil_append] at h
    exact ⟨_, h, ⟨m + 1, by omega, rfl⟩, fun hc => absurd hc hl, fun _ => rfl⟩

/-- C6 witness: the pagination theorem applied to a concrete three-page
server whose second page reaches the reported total of 3. -/
theorem c6_fetch_all_pages_pagination_witness :
    ∃ l, fetchAllPages c6WitnessServer 2 = some l ∧
      (∃ k, k ≤ 2 ∧ l = concatPages c6WitnessServer 1 k) ∧
      (kExtractItems (c6WitnessServer 2) = [] → l = concatPages c6WitnessServer 1 1) ∧
      (kExtractItems (c6WitnessServer 2) ≠ [] → l = concatPages c6WitnessServer 1 2) :=
  c6_fetch_all_pages_pagination c6WitnessServer 1
    (fun i hi => by
      have h0 : i = 0 := by omega
      subst h0
      exact ⟨ne_nil_of_isEmpty_false _ rfl, 3, rfl, by decide⟩)
    (Or.inr ⟨3, rfl, by decide⟩)

/-- C7: for the same item list, an object payload wrapped as
`{"List": [...]}` (or `{"list": [...]}`) and a bare array payload yield
the same raw-flight sequence, provided the first item is not itself a
date wrapper (the shape-dispatch test). -/
theorem c7_hk_shape_tolerance (items : List JVal) (fd : PyDate) (arrival : Bool)
    (h : hkWrapperTest items = false) :
    hkFetchFlights (.jdict [("List", .jlist items)]) fd arrival =
      hkFetchFlights (.jlist items) fd arrival ∧
    hkFetchFlights (.jdict [("list", .jlist items)]) fd arrival =
      hkFetchFlights (.jlist items) fd arrival := by
  constructor
  · cases items with
    | nil =>
      simp [hkFetchFlights, h, jIterItems, truthyChain, jget, jfind, pyTruthy,
        hkWrapperTest]
    | cons x rest =>
      simp [hkFetchFlights, h, jIterItems, truthyChain, jget, jfind, pyTruthy]
  · cases items with
    | nil =>
      simp [hkFetchFlights, h, jIterItems, truthyChain, jget, jfind, pyTruthy,
        hkWrapperTest]
    | cons x rest =>
      simp [hkFetchFlights, h, jIterItems, truthyChain, jget, jfind, pyTruthy]

/-- C7 witness: the shape-tolerance theorem applied to a concrete
classic-schema item list. -/
theorem c7_hk_shape_tolerance_witness :
    hkFetchFlights (.jdict [("List", .jlist c7WitnessItems)]) ⟨2025, 2, 17⟩ false =
      hkFetchFlights (.jlist c7WitnessItems) ⟨2025, 2, 17⟩ false ∧
    hkFetchFlights (.jdict [("list", .jlist c7WitnessItems)]) ⟨2025, 2, 17⟩ false =
      hkFetchFlights (.jlist c7WitnessItems) ⟨2025, 2, 17⟩ false :=
  c7_hk_shape_tolerance c7WitnessItems ⟨2025, 2, 17⟩ false rfl

/-- C8: the end-to-end scenario — a bidirectional HKG-TPE filter over a
single date against a source returning one HKG→TPE departure and one
TPE→HKG arrival yields exactly two flights, one per direction, with
`total_flights = 2` and `by_route = [HKG-TPE ↦ 1, TPE-HKG ↦ 1]`. -/
theorem c8_end_to_end_route_query :
    from_route_string "HKG-TPE" true = .ok c8Route ∧
    c8Result.flights.length = 2 ∧
    c8Result.flights.map (fun f => (f.origin, f.destination)) =
      [(some "HKG", some "TPE"), (some "TPE", some "HKG")] ∧
    (compute_stats c8Result.flights).total_flights = 2 ∧
    (compute_stats c8Result.flights).by_route = [("HKG-TPE", 1), ("TPE-HKG", 1)] := by
  refine ⟨rfl, by decide, by decide, by decide, by decide⟩

/-- C9: a route string built from two dash-free codes splits back into the
two codes upper-cased (round trip; the strip hypotheses say the upper-cased
codes carry no surrounding blanks), and any string without exactly one
dash is rejected with a `ValueError`. -/
theorem c9_route_filter_round_trip :
    (∀ (a b : String) (bidir : Bool), '-' ∉ a.data → '-' ∉ b.data →
      pyStrip (pyUpper a) = pyUpper a → pyStrip (pyUpper b) = pyUpper b →
      from_route_string (a ++ "-" ++ b) bidir =
        .ok ⟨some (pyUpper a), some (pyUpper b), bidir⟩) ∧
    (∀ (s : String) (bidir : Bool), s.data.count '-' ≠ 1 →
      ∃ msg, from_route_string s bidir = .error msg) := by
  constructor
  · intro a b bidir ha hb hsa hsb
    have hdash : Char.toUpper '-' = '-' := by decide
    have hdata : (pyUpper (a ++ "-" ++ b)).data =
        (pyUpper a).data ++ '-' :: (pyUpper b).data := by
      simp [pyUpper, String.data_append, hdash]
    have ha2 : '-' ∉ (pyUpper a).data := by
      intro hm
      obtain ⟨c, hc, heq⟩ := List.mem_map.mp hm
      exact toUpper_ne_dash c (fun he => ha (he ▸ hc)) heq
    have hb2 : '-' ∉ (pyUpper b).data := by
      intro hm
      obtain ⟨c, hc, heq⟩ := List.mem_map.mp hm
      exact toUpper_ne_dash c (fun he => hb (he ▸ hc)) heq
    unfold from_route_string
    rw [hdata, pySplitOn_append_sep _ _ _ ha2, pySplitOn_no_sep _ _ hb2]
    simp only [List.map_cons, List.map_nil]
    rw [show ((⟨(pyUpper a).data⟩ : String) = pyUpper a) from rfl,
        show ((⟨(pyUpper b).data⟩ : String) = pyUpper b) from rfl, hsa, hsb]
  · intro s bidir hcount
    unfold from_route_string
    have hlen : ((pySplitOn '-' (pyUpper s).data).map
        (fun l => (⟨l⟩ : String))).length ≠ 2 := by
      rw [List.length_map, pySplitOn_length_eq]
      have : (pyUpper s).data.count '-' = s.data.count '-' := count_dash_map_toUpper s.data
      omega
    rcases hL : (pySplitOn '-' (pyUpper s).data).map (fun l => (⟨l⟩ : String)) with
      _ | ⟨x, _ | ⟨y, _ | ⟨z, t⟩⟩⟩
    · exact ⟨_, rfl⟩
    · exact ⟨_, rfl⟩
    · rw [hL] at hlen
      simp at hlen
    · exact ⟨_, rfl⟩

/-- C9 witness: the round-trip theorem applied to `hkg-tpe` and the
rejection applied to `HKGTPE`. -/
theorem c9_route_filter_round_trip_witness :
    from_route_string ("hkg" ++ "-" ++ "tpe") true =
      .ok ⟨some (pyUpper "hkg"), some (pyUpper "tpe"), true⟩ ∧
    ∃ msg, from_route_string "HKGTPE" true = .error msg :=
  ⟨c9_route_filter_round_trip.1 "hkg" "tpe" true (by decide) (by decide) rfl rfl,
   c9_route_filter_round_trip.2 "HKGTPE" true (by decide)⟩

/-- C10: `compute_stats` counts every flight in `total_flights`,
`by_date`, `by_route` and `status_summary`, counts in `by_airline` exactly
the flights with a non-empty airline, and on a flight with an empty
airline the `by_airline` total is strictly below `total_flights`. -/
theorem c10_stats_by_airline_omits_empty :
    (∀ flights : List Flight,
      (compute_stats flights).total_flights = flights.length ∧
      sumCounts (compute_stats flights).by_date = flights.length ∧
      sumCounts (compute_stats flights).by_route = flights.length ∧
      sumCounts (compute_stats flights).status_summary = flights.length ∧
      sumCounts (compute_stats flights).by_airline =
        (flights.filter (fun f => f.airline ≠ "")).length) ∧
    sumCounts (compute_stats [c10EmptyAirlineFlight]).by_airline <
      (compute_stats [c10EmptyAirlineFlight]).total_flights := by
  constructor
  · intro flights
    refine ⟨?_, ?_, ?_, ?_, ?_⟩
    · rw [compute_stats, foldl_statsStep_total]
    · rw [compute_stats, foldl_statsStep_by_date]
      simp [sumCounts]
    · rw [compute_stats, foldl_statsStep_by_route]
      simp [sumCounts]
    · rw [compute_stats, foldl_statsStep_status]
      simp [sumCounts]
    · rw [compute_stats, foldl_statsStep_by_airline]
      simp [sumCounts]
  · decide

end Flyghts
